import Mathlib

/-!
Verification of the Smm_travel_bot repository (post store, publish pipeline,
config validation, one-shot topic handoff) against its specification.

Python strings are embedded as `List Char` (Python `len` counts code points,
matching `List.length` over Unicode scalar values); timestamps as `Nat`
(seconds since epoch); the SQL store as a `List Post` in insertion order;
nullable columns as `Option`; exceptions as explicit outcome constructors.
-/

namespace SmmTravelBot

/-- The `posts` table row from src/models.py (`class Post`): nullable
`image_url`, `image_prompt`, `published_at`, `telegram_message_id`, and a
nullable boolean `is_published` kept nullable for legacy rows. -/
structure Post where
  id : Nat
  topic : String
  content : List Char
  image_url : Option (List Char)
  image_prompt : Option String
  created_at : Nat
  published_at : Option Nat
  is_published : Option Bool
  telegram_message_id : Option Nat
deriving Repr, DecidableEq

/-- `add_post` from src/models.py: builds a `Post` with the `is_published`
argument set explicitly (Python default `False`), `created_at` defaulted to
the current time, and commits it to the store. Returns the new store and the
refreshed post. `newId` stands for the autoincrement primary key. -/
def add_post (store : List Post) (newId now : Nat) (topic : String)
    (content : List Char) (image_url : Option (List Char))
    (image_prompt : Option String) (is_published : Bool) : List Post × Post :=
  let post : Post :=
    { id := newId
      topic := topic
      content := content
      image_url := image_url
      image_prompt := image_prompt
      created_at := now
      published_at := none
      is_published := some is_published
      telegram_message_id := none }
  (store ++ [post], post)

/-- `add_post` invoked without the `is_published` keyword: Python applies the
declared default `is_published=False`. -/
def add_post_default (store : List Post) (newId now : Nat) (topic : String)
    (content : List Char) (image_url : Option (List Char))
    (image_prompt : Option String) : List Post × Post :=
  add_post store newId now topic content image_url image_prompt false

/-- The Python filter in `get_unpublished_posts`:
`is_published is None or is False or == 0 or == False` — in Python every
disjunct beyond the first collapses to the value being `False`/`0`, i.e. the
flag is unset or false. -/
def is_unpublished (p : Post) : Bool :=
  p.is_published == none || p.is_published == some false

/-- The `order_by(Post.created_at.desc())` comparison: `a` sorts no later
than `b` when `a` was created at the same time or after `b`. -/
def newerEq (a b : Post) : Bool :=
  b.created_at ≤ a.created_at

/-- `get_unpublished_posts` from src/models.py: queries all posts ordered by
`created_at` descending, then filters the unpublished ones in Python. -/
def get_unpublished_posts (store : List Post) : List Post :=
  (store.mergeSort newerEq).filter is_unpublished

/-- `get_unpublished_posts` including its `except Exception` handler: any
storage error makes the function log and return the empty list instead of
raising; `dbError` says whether the underlying query raised. -/
def get_unpublished_posts_run (dbError : Bool) (store : List Post) :
    List Post :=
  if dbError then [] else get_unpublished_posts store

/-- The field mutation in `mark_post_published`: flag true, `published_at`
stamped with the current time, telegram message id recorded. -/
def markPub (message_id now : Nat) (p : Post) : Post :=
  { p with is_published := some true
           published_at := some now
           telegram_message_id := some message_id }

/-- `mark_post_published` from src/models.py: finds the first post with the
given id (`filter(Post.id == post_id).first()`), mutates it and commits,
returning `true`; returns `false` when the id is unknown. -/
def mark_post_published (store : List Post) (post_id message_id now : Nat) :
    List Post × Bool :=
  match store with
  | [] => ([], false)
  | p :: rest =>
    if p.id = post_id then
      (markPub message_id now p :: rest, true)
    else
      let r := mark_post_published rest post_id message_id now
      (p :: r.1, r.2)

/-- The per-row repair of `fix_null_is_published`: an unset flag becomes
`False`; any other row is left alone. -/
def fixNullFlag (p : Post) : Post :=
  if p.is_published = none then { p with is_published := some false } else p

/-- `fix_null_is_published` from src/models.py: selects the rows with
`is_published IS NULL`, sets each flag to `False`, and returns how many rows
it fixed. -/
def fix_null_is_published (store : List Post) : List Post × Nat :=
  (store.map fixNullFlag,
   (store.filter (fun p => p.is_published == none)).length)

/-- The selection filter of `cmd_fix_published_posts` in src/bot.py: marked
published, no telegram message id, created within the last 24 hours
(`created_at >= utcnow() - timedelta(days=1)`). -/
def needsRevert (now : Nat) (p : Post) : Bool :=
  p.is_published == some true && p.telegram_message_id == none &&
    now - 86400 ≤ p.created_at

/-- The per-row revert of `cmd_fix_published_posts`: flag back to `False`,
published timestamp cleared. -/
def revertPost (p : Post) : Post :=
  { p with is_published := some false, published_at := none }

/-- The store mutation of `cmd_fix_published_posts` from src/bot.py: every
post matching `needsRevert` is reverted to unpublished, the rest of the
store is untouched; the command reports the number of reverted posts. -/
def cmd_fix_published_posts (store : List Post) (now : Nat) :
    List Post × Nat :=
  (store.map (fun p => if needsRevert now p then revertPost p else p),
   (store.filter (needsRevert now)).length)

/-! ## Configuration (src/config.py) -/

/-- The configuration values consulted by `Config.validate` in
src/config.py. Each `os.getenv` string is `Option String` (unset = `none`);
`ADMIN_ID` is `int(os.getenv('ADMIN_ID', 0))`, so an `Int` defaulting to 0
when unset. -/
structure Config where
  TELEGRAM_BOT_TOKEN : Option String
  TELEGRAM_GROUP_ID : Option String
  ADMIN_ID : Int
  OPENAI_API_KEY : Option String
deriving Repr, DecidableEq

/-- Python truthiness of an optional string: `None` and `""` are falsy. -/
def strTruthy : Option String → Bool
  | none => false
  | some s => s ≠ ""

/-- The `required_params` dict of `Config.validate`, in its insertion order,
each paired with its Python truthiness (`ADMIN_ID` is truthy iff nonzero). -/
def requiredParams (c : Config) : List (String × Bool) :=
  [("TELEGRAM_BOT_TOKEN", strTruthy c.TELEGRAM_BOT_TOKEN),
   ("OPENAI_API_KEY", strTruthy c.OPENAI_API_KEY),
   ("TELEGRAM_GROUP_ID", strTruthy c.TELEGRAM_GROUP_ID),
   ("ADMIN_ID", c.ADMIN_ID != 0)]

/-- `missing = [key for key, value in required_params.items() if not value]`. -/
def missingParams (c : Config) : List String :=
  ((requiredParams c).filter (fun kv => !kv.2)).map (fun kv => kv.1)

/-- The `ValueError` message of `Config.validate`, built from the missing
keys with `', '.join(missing)`. -/
def validateErrMsg (missing : List String) : String :=
  "Отсутствуют обязательные параметры в .env файле: " ++
    String.intercalate ", " missing ++
    "\nПожалуйста, создайте файл .env на основе .env.example"

/-- `Config.validate` from src/config.py: raises `ValueError` listing the
missing required keys when any required value is falsy, else returns
`True`. -/
def Config.validate (c : Config) : Except String Bool :=
  if missingParams c = [] then .ok true
  else .error (validateErrMsg (missingParams c))

/-! ## One-shot topic handoff (src/api_server.py, `get_make_topic`) -/

/-- The JSON payload of `make_topic_request.json` as the endpoint reads it:
a dict whose `topic` key may be absent. -/
structure TopicData where
  topic : Option String
deriving Repr, DecidableEq

/-- The state of the backing file: absent, holding a parsable payload, or
present but unreadable (the `json.load` path raises). -/
inductive MakeTopicFile where
  | valid (data : TopicData)
  | corrupt
deriving Repr, DecidableEq

/-- The three response shapes of `get_make_topic`: the stored dict itself,
the fallback `{"topic": None, "message": "Тема не задана"}`, or the
error envelope `{"topic": None, "error": ...}`. -/
inductive MakeResponse where
  | stored (data : TopicData)
  | noTopic (message : String)
  | readError
deriving Repr, DecidableEq

/-- The fallback message answered when no topic file exists. -/
def msgNoTopic : String := "Тема не задана"

/-- `get_make_topic` from src/api_server.py: if the backing file exists and
parses, return its payload and delete the file; if it does not exist,
answer the fallback value; if reading raises, answer the error envelope and
leave the file in place (the exception fires before `os.remove`). Returns
the new file state and the HTTP response body. -/
def get_make_topic : Option MakeTopicFile → Option MakeTopicFile × MakeResponse
  | some (.valid d) => (none, .stored d)
  | some .corrupt => (some .corrupt, .readError)
  | none => (none, .noTopic msgNoTopic)

/-! ## Publish pipeline (src/scheduler.py, `publish_post_to_telegram`) -/

/-- Outcome of the `bot.get_chat(group_id)` availability probe: success, or
an exception whose lowercased message contains "chat not found" or
"chat_id is empty", or "forbidden" or "not enough rights", or anything
else. -/
inductive ChatCheck where
  | ok
  | errNotFound
  | errForbidden
  | errOther
deriving Repr, DecidableEq

/-- The environment `publish_post_to_telegram` runs against:
`group_id` is `config.TELEGRAM_GROUP_ID`; `chatCheck` the result of the
`bot.get_chat` probe; `downloadOk` whether `download_image` returns a path;
`send1`/`send2` the outcomes of the first and (when reached) second
`bot.send_photo`/`bot.send_message` call — `some id` is a delivered message
with that id, `none` is a raised exception. -/
structure PublishEnv where
  group_id : Option String
  chatCheck : ChatCheck
  downloadOk : Bool
  send1 : Option Nat
  send2 : Option Nat
deriving Repr, DecidableEq

/-- The `post_data` dict handed to the pipeline: `content` plus an optional
`image_url`. -/
structure PostData where
  content : List Char
  image_url : Option (List Char)
deriving Repr, DecidableEq

/-- An outbound Telegram message: a photo with a caption, or a plain text
message. Every send targets the single normalized group id, so the chat id
is not repeated here. -/
inductive OutMsg where
  | photo (caption : List Char)
  | text (body : List Char)
deriving Repr, DecidableEq

/-- What the Python function does at its boundary: return a message id,
return `None` (the outer `except Exception` handler), or let a
`ValueError` with the given message escape. -/
inductive PublishOutcome where
  | ok (message_id : Nat)
  | noResult
  | raised (msg : String)
deriving Repr, DecidableEq

/-- Message of the `ValueError` raised when `TELEGRAM_GROUP_ID` is unset. -/
def msgGroupIdMissing : String := "TELEGRAM_GROUP_ID не установлен"

/-- Message of the `ValueError` raised when `bot.get_chat` reports the chat
as not found. -/
def msgChatNotFound : String :=
  "Группа не найдена! Проверьте, что:\n1. Бот добавлен в группу\n2. GROUP_ID правильный (используйте /chatid в группе)\n3. Группа не была удалена"

/-- Message of the `ValueError` raised when the bot lacks rights in the
group. -/
def msgForbidden : String :=
  "У бота нет прав в группе! Сделайте бота администратором группы."

/-- `MAX_CAPTION_LENGTH = 1024`, the Telegram caption cap. -/
def MAX_CAPTION_LENGTH : Nat := 1024

/-- The continuation marker appended to the truncated caption:
`"...\n\n👇 Читать полностью ниже"`. -/
def contMarker : List Char := "...\n\n👇 Читать полностью ниже".toList

/-- Python `str.strip()`: whitespace removed from both ends. -/
def pyStrip (l : List Char) : List Char :=
  ((l.dropWhile Char.isWhitespace).reverse.dropWhile Char.isWhitespace).reverse

/-- The guard `if image_url and image_url.strip():` — the URL is present,
nonempty, and not whitespace-only. -/
def imageUrlTruthy : Option (List Char) → Bool
  | none => false
  | some url => !url.isEmpty && !(pyStrip url).isEmpty

/-- `publish_post_to_telegram` from src/scheduler.py. Control flow of the
source: a falsy `TELEGRAM_GROUP_ID` raises a `ValueError` (re-raised by the
`except ValueError` arm); a failing `bot.get_chat` probe raises a
`ValueError` for "chat not found" / "forbidden" messages (re-raised) and
re-raises anything else, which the outer `except Exception` arm turns into
`None` — in every probe-failure case nothing is sent. With the probe passed:
a truthy image URL that downloads leads to a photo send, split into photo
plus full-text message when the content exceeds the caption cap; otherwise
a plain text send. Any raising send is caught by the outer handler and
yields `None`. Returns the outcome and the list of delivered messages. -/
def publish_post_to_telegram (env : PublishEnv) (pd : PostData) :
    PublishOutcome × List OutMsg :=
  match env.group_id with
  | none => (.raised msgGroupIdMissing, [])
  | some gid =>
    if gid = "" then (.raised msgGroupIdMissing, [])
    else
      match env.chatCheck with
      | .errNotFound => (.raised msgChatNotFound, [])
      | .errForbidden => (.raised msgForbidden, [])
      | .errOther => (.noResult, [])
      | .ok =>
        let content := pd.content
        if imageUrlTruthy pd.image_url && env.downloadOk then
          if content.length > MAX_CAPTION_LENGTH then
            let short_caption :=
              content.take (MAX_CAPTION_LENGTH - 50) ++ contMarker
            match env.send1 with
            | none => (.noResult, [])
            | some mid1 =>
              match env.send2 with
              | none => (.noResult, [.photo short_caption])
              | some _ => (.ok mid1, [.photo short_caption, .text content])
          else
            match env.send1 with
            | none => (.noResult, [])
            | some mid => (.ok mid, [.photo content])
        else
          match env.send1 with
          | none => (.noResult, [])
          | some mid => (.ok mid, [.text content])

/-! ## Concrete rows and inputs used to evaluate the definitions -/

/-- A plain unpublished row. -/
def wPost : Post :=
  { id := 1, topic := "Советы", content := ['a'], image_url := none,
    image_prompt := none, created_at := 100, published_at := none,
    is_published := some false, telegram_message_id := none }

/-- A legacy row with the unset flag. -/
def wPostNull : Post :=
  { wPost with id := 2, is_published := none }

/-- A row marked published without a telegram message id. -/
def wPostPubNoMsg : Post :=
  { wPost with
      id := 3
      created_at := 90000
      published_at := some 90000
      is_published := some true }

/-- A row published normally, message id recorded. -/
def wPostPub : Post :=
  { wPost with
      id := 4
      created_at := 50
      published_at := some 60
      is_published := some true
      telegram_message_id := some 9 }

/-- Content strictly longer than the caption cap. -/
def longContent : List Char := List.replicate 1025 'A'

/-- A fully healthy publish environment. -/
def wEnvOk : PublishEnv :=
  { group_id := some "-100123", chatCheck := .ok, downloadOk := true,
    send1 := some 7, send2 := some 8 }

/-- The same environment with the chat probe failing as "chat not found". -/
def wEnvNotFound : PublishEnv :=
  { wEnvOk with chatCheck := .errNotFound, send1 := none, send2 := none }

/-- Post data with over-cap content and a valid image URL. -/
def wPdLong : PostData :=
  { content := longContent, image_url := some "http://x/img.png".toList }

/-- Minimal post data without an image. -/
def wPdShort : PostData := { content := ['a'], image_url := none }

/-- A configuration with two required values missing. -/
def wConfigMissing : Config :=
  { TELEGRAM_BOT_TOKEN := none, TELEGRAM_GROUP_ID := some "-1",
    ADMIN_ID := 0, OPENAI_API_KEY := some "sk" }

/-! ## Helper lemmas -/

/-- Membership in the unpublished query is membership in the store with the
flag unset or false. -/
theorem mem_get_unpublished_posts (store : List Post) (p : Post) :
    p ∈ get_unpublished_posts store ↔
      p ∈ store ∧ (p.is_published = none ∨ p.is_published = some false) := by
  simp [get_unpublished_posts, List.mem_filter, is_unpublished]

/-- The unpublished query result is ordered newest-first. -/
theorem get_unpublished_posts_sorted (store : List Post) :
    (get_unpublished_posts store).Pairwise
      (fun a b => b.created_at ≤ a.created_at) := by
  have hs : (store.mergeSort newerEq).Pairwise (fun a b => newerEq a b) := by
    exact List.sorted_mergeSort
      (by intro a b c hab hbc; simp [newerEq] at hab hbc ⊢; omega)
      (by intro a b; simp [newerEq]; omega) store
  have hs' : (store.mergeSort newerEq).Pairwise
      (fun a b => b.created_at ≤ a.created_at) := by
    refine hs.imp ?_
    intro a b h; simpa [newerEq] using h
  exact hs'.sublist ((store.mergeSort newerEq).filter_sublist)

/-- Marking published twice collapses to the second call. -/
theorem mark_post_published_twice (store : List Post) (pid m1 t1 m2 t2 : Nat) :
    mark_post_published (mark_post_published store pid m1 t1).1 pid m2 t2 =
      mark_post_published store pid m2 t2 := by
  induction store with
  | nil => rfl
  | cons p rest ih =>
    by_cases h : p.id = pid
    · simp [mark_post_published, h, markPub]
    · simp [mark_post_published, h, ih]

/-- When some row carries the target id, `mark_post_published` reports
success. -/
theorem mark_post_published_found (store : List Post) (pid m t : Nat)
    (hmem : ∃ p ∈ store, p.id = pid) :
    (mark_post_published store pid m t).2 = true := by
  induction store with
  | nil => simp at hmem
  | cons p rest ih =>
    by_cases h : p.id = pid
    · simp [mark_post_published, h]
    · rcases hmem with ⟨q, hq, hqid⟩
      rcases List.mem_cons.mp hq with rfl | hq
      · exact absurd hqid h
      · simp [mark_post_published, h, ih ⟨q, hq, hqid⟩]

/-- With unique ids, after `mark_post_published` the row carrying the target
id has flag true and the stamped timestamp and message id. -/
theorem mark_post_published_fields (store : List Post) (pid m t : Nat)
    (hnd : (store.map Post.id).Nodup) :
    ∀ p ∈ (mark_post_published store pid m t).1, p.id = pid →
      p.is_published = some true ∧ p.published_at = some t ∧
        p.telegram_message_id = some m := by
  induction store with
  | nil => intro p hp; simp [mark_post_published] at hp
  | cons q rest ih =>
    rw [List.map_cons, List.nodup_cons] at hnd
    intro p hp hpid
    by_cases h : q.id = pid
    · rw [mark_post_published, if_pos h] at hp
      rcases List.mem_cons.mp hp with rfl | hp
      · simp [markPub]
      · exact absurd (h ▸ hpid ▸ List.mem_map_of_mem Post.id hp) hnd.1
    · rw [mark_post_published, if_neg h] at hp
      rcases List.mem_cons.mp hp with rfl | hp
      · exact absurd hpid h
      · exact ih hnd.2 p hp hpid

/-- A publish attempt with a falsy `TELEGRAM_GROUP_ID` raises the
configuration error and sends nothing. -/
theorem publish_group_missing (env : PublishEnv) (pd : PostData)
    (h : env.group_id = none ∨ env.group_id = some "") :
    publish_post_to_telegram env pd = (.raised msgGroupIdMissing, []) := by
  rcases h with h | h <;> simp [publish_post_to_telegram, h]

/-- With the group configured, each failing outcome of the chat probe maps
to its dedicated result, with nothing sent. -/
theorem publish_chat_cases (env : PublishEnv) (pd : PostData) (gid : String)
    (hg : env.group_id = some gid) (hne : gid ≠ "") :
    (env.chatCheck = .errNotFound →
      publish_post_to_telegram env pd = (.raised msgChatNotFound, [])) ∧
    (env.chatCheck = .errForbidden →
      publish_post_to_telegram env pd = (.raised msgForbidden, [])) ∧
    (env.chatCheck = .errOther →
      publish_post_to_telegram env pd = (.noResult, [])) := by
  refine ⟨?_, ?_, ?_⟩ <;> intro hc <;>
    simp [publish_post_to_telegram, hg, hne, hc]

/-- With the probe passed: a raising first send yields the sentinel, and
fully successful sends return the first message id. -/
theorem publish_chatOk_cases (env : PublishEnv) (pd : PostData)
    (gid : String) (hg : env.group_id = some gid) (hne : gid ≠ "")
    (hc : env.chatCheck = .ok) :
    (env.send1 = none → (publish_post_to_telegram env pd).1 = .noResult) ∧
    (∀ m1 m2 : Nat, env.send1 = some m1 → env.send2 = some m2 →
      (publish_post_to_telegram env pd).1 = .ok m1) := by
  constructor
  · intro h1
    by_cases hcond : (imageUrlTruthy pd.image_url && env.downloadOk) = true
    · by_cases hlen : pd.content.length > MAX_CAPTION_LENGTH
      · simp [publish_post_to_telegram, hg, hne, hc, hcond, hlen, h1]
      · simp [publish_post_to_telegram, hg, hne, hc, hcond, hlen, h1]
    · simp [publish_post_to_telegram, hg, hne, hc, hcond, h1]
  · intro m1 m2 h1 h2
    by_cases hcond : (imageUrlTruthy pd.image_url && env.downloadOk) = true
    · by_cases hlen : pd.content.length > MAX_CAPTION_LENGTH
      · simp [publish_post_to_telegram, hg, hne, hc, hcond, hlen, h1, h2]
      · simp [publish_post_to_telegram, hg, hne, hc, hcond, hlen, h1]
    · simp [publish_post_to_telegram, hg, hne, hc, hcond, h1]

/-- With the probe passed the pipeline never raises. -/
theorem publish_chatOk_no_raise (env : PublishEnv) (pd : PostData)
    (gid : String) (hg : env.group_id = some gid) (hne : gid ≠ "")
    (hc : env.chatCheck = .ok) (m : String) :
    (publish_post_to_telegram env pd).1 ≠ .raised m := by
  by_cases hcond : (imageUrlTruthy pd.image_url && env.downloadOk) = true <;>
  by_cases hlen : pd.content.length > MAX_CAPTION_LENGTH <;>
  rcases h1 : env.send1 with _ | m1 <;>
  rcases h2 : env.send2 with _ | m2 <;>
    simp [publish_post_to_telegram, hg, hne, hc, hcond, hlen, h1, h2]

/-- Whenever the chat probe does not succeed, nothing is sent. -/
theorem publish_probe_fail_no_send (env : PublishEnv) (pd : PostData)
    (hc : env.chatCheck ≠ .ok) :
    (publish_post_to_telegram env pd).2 = [] := by
  rcases hg : env.group_id with _ | gid
  · simp [publish_group_missing env pd (Or.inl hg)]
  · by_cases hne : gid = ""
    · subst hne; simp [publish_group_missing env pd (Or.inr hg)]
    · rcases hcc : env.chatCheck
      · exact absurd hcc hc
      · simp [(publish_chat_cases env pd gid hg hne).1 hcc]
      · simp [(publish_chat_cases env pd gid hg hne).2.1 hcc]
      · simp [(publish_chat_cases env pd gid hg hne).2.2 hcc]

/-- A `ValueError` escapes only for the three validation failures, each
with its own message. -/
theorem publish_raised_only_validation (env : PublishEnv) (pd : PostData)
    (m : String) (h : (publish_post_to_telegram env pd).1 = .raised m) :
    ((env.group_id = none ∨ env.group_id = some "") ∧
      m = msgGroupIdMissing) ∨
    (env.chatCheck = .errNotFound ∧ m = msgChatNotFound) ∨
    (env.chatCheck = .errForbidden ∧ m = msgForbidden) := by
  rcases hg : env.group_id with _ | gid
  · rw [publish_group_missing env pd (Or.inl hg)] at h
    simp at h
    exact Or.inl ⟨Or.inl rfl, h.symm⟩
  · by_cases hne : gid = ""
    · subst hne
      rw [publish_group_missing env pd (Or.inr hg)] at h
      simp at h
      exact Or.inl ⟨Or.inr rfl, h.symm⟩
    · rcases hcc : env.chatCheck
      · exact absurd h (publish_chatOk_no_raise env pd gid hg hne hcc m)
      · rw [(publish_chat_cases env pd gid hg hne).1 hcc] at h
        simp at h
        exact Or.inr (Or.inl ⟨rfl, h.symm⟩)
      · rw [(publish_chat_cases env pd gid hg hne).2.1 hcc] at h
        simp at h
        exact Or.inr (Or.inr ⟨rfl, h.symm⟩)
      · rw [(publish_chat_cases env pd gid hg hne).2.2 hcc] at h
        simp at h

/-! ## Claim theorems -/

/-- C1: with over-cap content and a present, successfully downloading image
URL, the pipeline sends exactly two messages — first a photo whose caption
stays within the 1024 cap and ends with the continuation marker, then the
full text — and returns the first (photo) message id. -/
theorem C1_publish_long_content_two_messages (env : PublishEnv)
    (pd : PostData) (gid : String) (hg : env.group_id = some gid)
    (hne : gid ≠ "") (hc : env.chatCheck = .ok)
    (himg : imageUrlTruthy pd.image_url = true) (hdl : env.downloadOk = true)
    (hlong : MAX_CAPTION_LENGTH < pd.content.length) (mid1 mid2 : Nat)
    (h1 : env.send1 = some mid1) (h2 : env.send2 = some mid2) :
    publish_post_to_telegram env pd =
      (.ok mid1,
        [.photo (pd.content.take (MAX_CAPTION_LENGTH - 50) ++ contMarker),
         .text pd.content]) ∧
    (pd.content.take (MAX_CAPTION_LENGTH - 50) ++ contMarker).length ≤
      MAX_CAPTION_LENGTH ∧
    contMarker <:+ (pd.content.take (MAX_CAPTION_LENGTH - 50) ++
      contMarker) := by
  refine ⟨?_, ?_, List.suffix_append _ _⟩
  · simp [publish_post_to_telegram, hg, hne, hc, himg, hdl, hlong, h1, h2]
  · have ht : (pd.content.take (MAX_CAPTION_LENGTH - 50)).length ≤
        MAX_CAPTION_LENGTH - 50 := List.length_take_le _ _
    have hm : contMarker.length = 28 := by decide
    have hM : MAX_CAPTION_LENGTH = 1024 := rfl
    rw [List.length_append, hm]
    omega

set_option maxRecDepth 8000 in
/-- C1 witness: 1025 characters of content with a valid image URL produce
the photo-with-marker message and the full-text message, returning the
photo message id 7. -/
theorem C1_publish_long_content_two_messages_witness :
    publish_post_to_telegram wEnvOk wPdLong =
      (.ok 7,
        [.photo (longContent.take (MAX_CAPTION_LENGTH - 50) ++ contMarker),
         .text longContent]) :=
  (C1_publish_long_content_two_messages wEnvOk wPdLong "-100123" rfl
    (by decide) rfl (by decide) rfl (by decide) 7 8 rfl rfl).1

/-- C2: the pipeline returns the first message id on success and the
sentinel on a transient send failure; it raises exactly for the three
validation failures — unset group id, chat not found, insufficient rights —
each with its own distinct message, and whenever the group probe fails it
sends nothing. -/
theorem C2_publish_validation_vs_transient (env : PublishEnv)
    (pd : PostData) :
    ((env.group_id = none ∨ env.group_id = some "") →
      publish_post_to_telegram env pd = (.raised msgGroupIdMissing, [])) ∧
    (∀ gid : String, env.group_id = some gid → gid ≠ "" →
      (env.chatCheck = .errNotFound →
        publish_post_to_telegram env pd = (.raised msgChatNotFound, [])) ∧
      (env.chatCheck = .errForbidden →
        publish_post_to_telegram env pd = (.raised msgForbidden, [])) ∧
      (env.chatCheck = .errOther →
        publish_post_to_telegram env pd = (.noResult, [])) ∧
      (env.chatCheck = .ok → env.send1 = none →
        (publish_post_to_telegram env pd).1 = .noResult) ∧
      (∀ m1 m2 : Nat, env.chatCheck = .ok → env.send1 = some m1 →
        env.send2 = some m2 →
        (publish_post_to_telegram env pd).1 = .ok m1)) ∧
    (∀ m : String, (publish_post_to_telegram env pd).1 = .raised m →
      ((env.group_id = none ∨ env.group_id = some "") ∧
        m = msgGroupIdMissing) ∨
      (env.chatCheck = .errNotFound ∧ m = msgChatNotFound) ∨
      (env.chatCheck = .errForbidden ∧ m = msgForbidden)) ∧
    (env.chatCheck ≠ .ok → (publish_post_to_telegram env pd).2 = []) ∧
    (msgGroupIdMissing ≠ msgChatNotFound ∧
      msgGroupIdMissing ≠ msgForbidden ∧
      msgChatNotFound ≠ msgForbidden) := by
  refine ⟨publish_group_missing env pd, ?_,
    publish_raised_only_validation env pd,
    publish_probe_fail_no_send env pd, by decide, by decide, by decide⟩
  intro gid hg hne
  have hcases := publish_chat_cases env pd gid hg hne
  refine ⟨hcases.1, hcases.2.1, hcases.2.2, ?_, ?_⟩
  · intro hc h1
    exact (publish_chatOk_cases env pd gid hg hne hc).1 h1
  · intro m1 m2 hc h1 h2
    exact (publish_chatOk_cases env pd gid hg hne hc).2 m1 m2 h1 h2

/-- C2 witness: a "chat not found" probe failure raises the dedicated
validation message and sends nothing. -/
theorem C2_publish_validation_vs_transient_witness :
    publish_post_to_telegram wEnvNotFound wPdShort =
      (.raised msgChatNotFound, []) :=
  ((C2_publish_validation_vs_transient wEnvNotFound wPdShort).2.1 "-100123"
    rfl (by decide)).1 rfl

/-- C3: for every store, `get_unpublished_posts` returns exactly the posts
whose published flag is false or unset, ordered newest-first by creation
timestamp, and every post created through `add_post` without a published
flag lands in it. -/
theorem C3_get_unpublished_posts_spec (store : List Post) :
    (∀ p : Post, p ∈ get_unpublished_posts store ↔
      p ∈ store ∧ (p.is_published = none ∨ p.is_published = some false)) ∧
    (get_unpublished_posts store).Pairwise
      (fun a b => b.created_at ≤ a.created_at) ∧
    (∀ (newId now : Nat) (topic : String) (content : List Char)
        (iu : Option (List Char)) (ip : Option String),
      (add_post_default store newId now topic content iu ip).2 ∈
        get_unpublished_posts
          (add_post_default store newId now topic content iu ip).1) := by
  refine ⟨fun p => mem_get_unpublished_posts store p,
    get_unpublished_posts_sorted store, ?_⟩
  intro newId now topic content iu ip
  rw [mem_get_unpublished_posts]
  constructor
  · simp [add_post_default, add_post]
  · right; rfl

/-- C3 witness: a concrete store where the query keeps exactly the false and
unset rows, newest first. -/
theorem C3_get_unpublished_posts_spec_witness :
    wPostNull ∈ get_unpublished_posts [wPost, wPostNull, wPostPub] ∧
    ¬ wPostPub ∈ get_unpublished_posts [wPost, wPostNull, wPostPub] := by
  constructor
  · exact ((C3_get_unpublished_posts_spec [wPost, wPostNull, wPostPub]).1
      wPostNull).mpr ⟨by decide, by decide⟩
  · intro h
    have := ((C3_get_unpublished_posts_spec [wPost, wPostNull, wPostPub]).1
      wPostPub).mp h
    revert this; decide

/-- C4: `mark_post_published` is idempotent in effect: on a store with
unique ids containing the target post, two calls (with possibly different
message ids and timestamps) equal the second call alone, the second call
reports success, and the target row ends with flag true, the second call's
timestamp, and the second call's message id. -/
theorem C4_mark_post_published_idempotent (store : List Post)
    (pid m1 t1 m2 t2 : Nat) (hmem : ∃ p ∈ store, p.id = pid)
    (hnd : (store.map Post.id).Nodup) :
    mark_post_published (mark_post_published store pid m1 t1).1 pid m2 t2 =
      mark_post_published store pid m2 t2 ∧
    (mark_post_published store pid m2 t2).2 = true ∧
    (∀ p ∈ (mark_post_published
        (mark_post_published store pid m1 t1).1 pid m2 t2).1,
      p.id = pid → p.is_published = some true ∧ p.published_at = some t2 ∧
        p.telegram_message_id = some m2) := by
  refine ⟨mark_post_published_twice store pid m1 t1 m2 t2,
    mark_post_published_found store pid m2 t2 hmem, ?_⟩
  rw [mark_post_published_twice store pid m1 t1 m2 t2]
  exact mark_post_published_fields store pid m2 t2 hnd

/-- C4 witness: both hypotheses hold at a concrete one-row store and the
double call collapses to the second. -/
theorem C4_mark_post_published_idempotent_witness :
    mark_post_published (mark_post_published [wPost] 1 5 10).1 1 6 20 =
      mark_post_published [wPost] 1 6 20 :=
  (C4_mark_post_published_idempotent [wPost] 1 5 10 6 20
    ⟨wPost, by decide, by decide⟩ (by decide)).1

/-- C5: on a store with exactly `N` unset-flag posts, the repair leaves no
unset flags, returns `N`, and rewrites each row only through `fixNullFlag`,
which touches nothing but an unset `is_published` field. -/
theorem C5_fix_null_is_published_spec (store : List Post) (N : Nat)
    (hN : (store.filter (fun p => p.is_published == none)).length = N) :
    (fix_null_is_published store).2 = N ∧
    (∀ p ∈ (fix_null_is_published store).1, p.is_published ≠ none) ∧
    (∀ i : Nat, (fix_null_is_published store).1[i]? =
      (store[i]?).map fixNullFlag) ∧
    (∀ p : Post, p.is_published ≠ none → fixNullFlag p = p) ∧
    (∀ p : Post, p.is_published = none →
      fixNullFlag p = { p with is_published := some false }) := by
  refine ⟨hN, ?_, ?_, ?_, ?_⟩
  · intro p hp
    rw [fix_null_is_published] at hp
    obtain ⟨q, _, rfl⟩ := List.mem_map.mp hp
    by_cases h : q.is_published = none <;> simp [fixNullFlag, h]
  · intro i; simp [fix_null_is_published]
  · intro p h; simp [fixNullFlag, h]
  · intro p h; simp [fixNullFlag, h]

/-- C5 witness: a store with one unset-flag row reports one fix and keeps no
unset flag. -/
theorem C5_fix_null_is_published_spec_witness :
    (fix_null_is_published [wPost, wPostNull]).2 = 1 ∧
    (fix_null_is_published [wPost, wPostNull]).1 =
      [wPost, { wPostNull with is_published := some false }] :=
  ⟨(C5_fix_null_is_published_spec [wPost, wPostNull] 1 (by decide)).1,
   by decide⟩

/-- C6: the corrective command reverts exactly the posts with flag true, no
telegram message id, and creation within the last 24 hours — each gets flag
false and a cleared published timestamp — and leaves every other post
unchanged. -/
theorem C6_cmd_fix_published_posts_spec (store : List Post) (now : Nat) :
    (∀ i : Nat, (cmd_fix_published_posts store now).1[i]? =
      (store[i]?).map (fun p => if needsRevert now p then revertPost p else p)) ∧
    (cmd_fix_published_posts store now).2 =
      (store.filter (needsRevert now)).length ∧
    (∀ p : Post, needsRevert now p = true ↔
      (p.is_published = some true ∧ p.telegram_message_id = none ∧
        now - 86400 ≤ p.created_at)) ∧
    (∀ p : Post, needsRevert now p = true →
      (if needsRevert now p then revertPost p else p) =
        { p with is_published := some false, published_at := none }) ∧
    (∀ p : Post, needsRevert now p = false →
      (if needsRevert now p then revertPost p else p) = p) := by
  refine ⟨?_, rfl, ?_, ?_, ?_⟩
  · intro i; simp [cmd_fix_published_posts]
  · intro p; simp [needsRevert, and_assoc]
  · intro p h; simp [h, revertPost]
  · intro p h; simp [h]

/-- C6 witness: a recent published row without a message id is reverted,
while a normally published row survives untouched. -/
theorem C6_cmd_fix_published_posts_spec_witness :
    needsRevert 100000 wPostPubNoMsg = true ∧
    needsRevert 100000 wPostPub = false ∧
    (cmd_fix_published_posts [wPostPubNoMsg, wPostPub] 100000).1 =
      [{ wPostPubNoMsg with is_published := some false, published_at := none },
        wPostPub] ∧
    (cmd_fix_published_posts [wPostPubNoMsg, wPostPub] 100000).2 = 1 := by
  refine ⟨by decide, by decide, by decide, ?_⟩
  rw [(C6_cmd_fix_published_posts_spec [wPostPubNoMsg, wPostPub] 100000).2.1]
  decide

/-- C7: the one-shot topic handoff deletes its backing file after one
successful read — a second read finds no state and answers the fallback —
and with no backing state it answers the fallback `topic = null` plus
explanatory message instead of failing. -/
theorem C7_get_make_topic_one_shot (d : TopicData) :
    get_make_topic (some (.valid d)) = (none, .stored d) ∧
    get_make_topic (get_make_topic (some (.valid d))).1 =
      (none, .noTopic msgNoTopic) ∧
    get_make_topic none = (none, .noTopic msgNoTopic) :=
  ⟨rfl, rfl, rfl⟩

/-- C8: configuration validation succeeds returning true exactly when every
required value is present, and otherwise raises an error built from the
complete list of missing required keys. -/
theorem C8_config_validate_spec (c : Config) :
    (Config.validate c = .ok true ↔ missingParams c = []) ∧
    (missingParams c = [] ↔
      (strTruthy c.TELEGRAM_BOT_TOKEN = true ∧
       strTruthy c.OPENAI_API_KEY = true ∧
       strTruthy c.TELEGRAM_GROUP_ID = true ∧ c.ADMIN_ID ≠ 0)) ∧
    (missingParams c ≠ [] →
      Config.validate c = .error (validateErrMsg (missingParams c))) ∧
    (∀ name flag, (name, flag) ∈ requiredParams c → flag = false →
      name ∈ missingParams c) ∧
    (∀ name, name ∈ missingParams c → (name, false) ∈ requiredParams c) := by
  refine ⟨?_, ?_, ?_, ?_, ?_⟩
  · by_cases hm : missingParams c = [] <;> simp [Config.validate, hm]
  · rw [missingParams, List.map_eq_nil_iff, List.filter_eq_nil_iff]
    simp [requiredParams, and_assoc]
  · intro hm; simp [Config.validate, hm]
  · intro name flag hmem hflag
    subst hflag
    exact List.mem_map.mpr ⟨(name, false),
      List.mem_filter.mpr ⟨hmem, by simp⟩, rfl⟩
  · intro name hname
    obtain ⟨⟨n, b⟩, hmem, rfl⟩ := List.mem_map.mp hname
    have hb := (List.mem_filter.mp hmem).2
    have hmem' := (List.mem_filter.mp hmem).1
    cases b
    · exact hmem'
    · simp at hb

/-- C8 witness: with the bot token unset and a zero admin id, validation
fails with the message listing both missing keys; with everything present it
returns true. -/
theorem C8_config_validate_spec_witness :
    Config.validate wConfigMissing =
      .error (validateErrMsg ["TELEGRAM_BOT_TOKEN", "ADMIN_ID"]) ∧
    Config.validate
      { TELEGRAM_BOT_TOKEN := some "t", TELEGRAM_GROUP_ID := some "g",
        ADMIN_ID := 5, OPENAI_API_KEY := some "k" } = .ok true := by
  constructor
  · have hm : missingParams wConfigMissing =
        ["TELEGRAM_BOT_TOKEN", "ADMIN_ID"] := by decide
    have h := (C8_config_validate_spec wConfigMissing).2.2.1 (by decide)
    rw [hm] at h
    exact h
  · rfl

/-- C9: every post created through `add_post` stores a non-null published
flag equal to the `is_published` argument, `false` when Python's default
applies; the new row is in the committed store. -/
theorem C9_add_post_stores_nonnull_flag (store : List Post) (newId now : Nat)
    (topic : String) (content : List Char) (image_url : Option (List Char))
    (image_prompt : Option String) (is_pub : Bool) :
    (add_post store newId now topic content image_url image_prompt
        is_pub).2.is_published = some is_pub ∧
    (add_post store newId now topic content image_url image_prompt
        is_pub).2.is_published ≠ none ∧
    (add_post store newId now topic content image_url image_prompt is_pub).2
      ∈ (add_post store newId now topic content image_url image_prompt
        is_pub).1 ∧
    (add_post_default store newId now topic content image_url
        image_prompt).2.is_published = some false := by
  refine ⟨rfl, by simp [add_post], ?_, rfl⟩
  simp [add_post]

/-- C9 witness: a concrete default creation stores the flag as `some
false`, never the unset state. -/
theorem C9_add_post_stores_nonnull_flag_witness :
    (add_post [wPost] 2 200 "t" ['b'] none none false).2.is_published =
      some false ∧
    (add_post [wPost] 2 200 "t" ['b'] none none false).2.is_published ≠
      none :=
  ⟨(C9_add_post_stores_nonnull_flag [wPost] 2 200 "t" ['b'] none none
      false).1,
   (C9_add_post_stores_nonnull_flag [wPost] 2 200 "t" ['b'] none none
      false).2.1⟩

/-- C10: `get_unpublished_posts` never raises: with the storage layer
failing it returns the empty list, which is exactly what a store with no
unpublished posts returns — the two are indistinguishable to callers. -/
theorem C10_get_unpublished_posts_never_raises (store : List Post) :
    get_unpublished_posts_run true store = [] ∧
    get_unpublished_posts_run true store = get_unpublished_posts_run false [] ∧
    (∀ e : Bool, get_unpublished_posts_run e store = [] ∨
      get_unpublished_posts_run e store = get_unpublished_posts store) := by
  refine ⟨rfl, ?_, ?_⟩
  · simp [get_unpublished_posts_run, get_unpublished_posts]
  · intro e
    cases e
    · right; rfl
    · left; rfl

end SmmTravelBot
